import Mathlib

/-!
Shallow embedding of the `fetch` CLI (src/index.ts): a web-page fetcher with
an optional mirroring mode.  Pure functions model the source functions
(`isValidUrl`, `extractDomainName`, `fetchAndParseURL`, `mirror`, `main`);
the external effects (the puppeteer browser, axios, cheerio, the filesystem)
are modelled by an explicit oracle (`World`), an association-list filesystem
(`FS`), and a trace of observable events (`Event`).
-/

namespace Fetch

/-- Filesystem model: an association list of absolute path to file content.
`fsWrite` prepends, so a later write to the same path shadows an earlier one
(the overwrite semantics of `fs.writeFileSync`); `fsRead` returns the most
recent write.  Directory creation (`fs.mkdirSync` with `recursive: true`,
guarded by `fs.existsSync`) has no observable effect in a path-keyed model
and is not tracked; filesystem writes are modelled as always succeeding. -/
abbrev FS := List (String × String)

def fsWrite (fs : FS) (p c : String) : FS := (p, c) :: fs

def fsRead (fs : FS) (p : String) : Option String :=
  (fs.find? (fun e => e.1 == p)).map Prod.snd

/-- Observable events of one run, in program order.  `browserLaunch` is
`puppeteer.launch`, `newPage` is `browser.newPage`, `gotoPage` the page
navigation `page.goto(url)`, `gotoAsset` the per-asset navigation
`page.goto(assetUrl)`, `writeFile` an `fs.writeFileSync`, `skipAsset` the
`continue` on a non-http(s) asset URL, `noResponse` the "No response
received" report, `assetError` the per-asset `catch` report, `browserClose`
is `browser.close`, and `axiosFetch` the `axios.get` of the fetch path. -/
inductive Event where
  | browserLaunch
  | newPage
  | gotoPage (url : String)
  | writeFile (path content : String)
  | gotoAsset (url : String)
  | skipAsset (url : String)
  | noResponse (url : String)
  | assetError (url : String)
  | browserClose
  | axiosFetch (url : String)
  deriving Repr, DecidableEq

/-- Result of the WHATWG URL constructor (`new URL(...)` of the JS host
environment), restricted to the components the program reads (`hostname`,
`pathname`) plus whether the parsed URL carries an authority. -/
structure URLRec where
  scheme : String
  hostname : String
  pathname : String
  hasAuthority : Bool
  deriving Repr, DecidableEq

def isSchemeChar (c : Char) : Bool :=
  c.isAlpha || c.isDigit || c == '+' || c == '-' || c == '.'

/-- Splits a character list at the first `':'`, requiring every character
before it to be a URL scheme character; `none` when there is no colon or a
non-scheme character comes first. -/
def takeScheme : List Char → Option (List Char × List Char)
  | [] => none
  | c :: rest =>
    if c == ':' then some ([], rest)
    else if isSchemeChar c then
      match takeScheme rest with
      | some (s, r) => some (c :: s, r)
      | none => none
    else none

def specialSchemes : List String := ["http", "https", "ws", "wss", "ftp"]

/-- Characters that terminate the host chunk of a URL authority. -/
def isHostTerm (c : Char) : Bool :=
  c == '/' || c == '\\' || c == '?' || c == '#'

/-- WHATWG "special authority ignore slashes": any run of `/` or `\` between
the scheme of a special URL and its host is skipped. -/
def dropLeadingSlashes : List Char → List Char
  | [] => []
  | c :: rest =>
    if c == '/' || c == '\\' then dropLeadingSlashes rest else c :: rest

/-- Extracts the hostname from an authority chunk: drops a userinfo part
(up to the last `'@'`) and a port (after the first `':'`). -/
def parseHostChunk (chunk : List Char) : String :=
  let afterUser :=
    if chunk.contains '@' then (chunk.reverse.takeWhile (fun c => c ≠ '@')).reverse
    else chunk
  String.mk (afterUser.takeWhile (fun c => c ≠ ':'))

/-- Path component: everything up to the query or fragment. -/
def takePath (cs : List Char) : String :=
  String.mk (cs.takeWhile (fun c => !(c == '?' || c == '#')))

/-- Model of the WHATWG basic URL parser (the behaviour of `new URL(s)` with
no base), on the fragment of inputs this program can meet: `none` models the
constructor throwing `Invalid URL`.  A scheme (letter first, then scheme
characters, then `':'`) is required; for the special schemes
(http/https/ws/wss/ftp) an authority with a non-empty, space-free host is
required and an empty path reads as "/"; a non-special scheme needs no
authority (`mailto:`, `data:` URLs parse fine), with an authority exactly
when the scheme is followed by `//`.  IPv6 host brackets, percent-encoding
normalisation and port validation are not modelled; no claim exercises
them. -/
def parseURL (urlString : String) : Option URLRec :=
  match takeScheme urlString.toList with
  | none => none
  | some (schemeChars, rest) =>
    match schemeChars with
    | [] => none
    | c0 :: _ =>
      if c0.isAlpha then
        let scheme := String.mk (schemeChars.map Char.toLower)
        if specialSchemes.contains scheme then
          let afterSlashes := dropLeadingSlashes rest
          let hostChunk := afterSlashes.takeWhile (fun c => !isHostTerm c)
          let afterHost := afterSlashes.dropWhile (fun c => !isHostTerm c)
          let hostname := parseHostChunk hostChunk
          if hostname == "" || hostname.toList.contains ' ' then none
          else
            let p := takePath afterHost
            some ⟨scheme, hostname, if p == "" then "/" else p, true⟩
        else
          match rest with
          | '/' :: '/' :: r =>
            let hostChunk := r.takeWhile (fun c => !isHostTerm c)
            let afterHost := r.dropWhile (fun c => !isHostTerm c)
            some ⟨scheme, parseHostChunk hostChunk, takePath afterHost, true⟩
          | _ => some ⟨scheme, "", takePath rest, false⟩
      else none

/-- Model of `String.startsWith` by character-list comparison (defined by
structural recursion so concrete instances evaluate): does `s` begin with
the exact prefix `p`. -/
def strStartsWith (s p : String) : Bool := p.toList.isPrefixOf s.toList

/-- Model of Node's `path.join` on the shapes this program produces: the two
segments joined by a single separator (a trailing separator on the left and
a leading separator on the right are collapsed).  `path.join`'s
normalisation of `..` segments is not modelled; no claim exercises it. -/
def pathJoin (a b : String) : String :=
  let as := if a.toList.getLast? = some '/' then a.toList.dropLast else a.toList
  let bs := if b.toList.head? = some '/' then b.toList.tail else b.toList
  String.mk (as ++ '/' :: bs)

/-- Oracle for the external collaborators of one run.
`renderPage u` models `page.goto(u, {waitUntil: "networkidle0"})` followed by
`page.content()`: `Except.error` is a thrown navigation failure,
`Except.ok c` the serialized DOM.  `assets u` is what `page.evaluate`
returns on the rendered page of `u` (the discovered asset URLs, in DOM
order).  `assetFetch a` models `page.goto(a)` plus `response.buffer()`:
`none` is a throw, `some none` a null response, `some (some b)` a response
with body `b`.  `axiosGet` models `axios.get` (`Except.error` = throw) and
`cheerioHtml` the `cheerio.load(data)` / `$.html()` round trip. -/
structure World where
  renderPage : String → Except String String
  assets : String → List String
  assetFetch : String → Option (Option String)
  axiosGet : String → Except String String
  cheerioHtml : String → String

/-- Embedding of `isValidUrl` (src/index.ts:96-106): `!urlString` is true
exactly for the empty string; otherwise `new URL(urlString)` inside
try/catch — true iff the constructor does not throw. -/
def isValidUrl (urlString : String) : Bool :=
  if urlString == "" then false
  else
    match parseURL urlString with
    | some _ => true
    | none => false

/-- Embedding of `extractDomainName` (src/index.ts:201-203):
`new URL(url).hostname`; `none` models the uncaught throw on an
unparseable input. -/
def extractDomainName (url : String) : Option String :=
  (parseURL url).map URLRec.hostname

/-- Outcome of one `fetchAndParseURL` call. -/
inductive FetchOutcome where
  | skippedInvalid
  | saved (path : String)
  | errorCaught (msg : String)
  deriving Repr, DecidableEq

/-- Embedding of `fetchAndParseURL` (src/index.ts:56-89).  The invalid-URL
guard returns before any fetch; everything after it sits in a try/catch, so
an axios failure (or an `extractDomainName` throw) becomes a caught,
reported outcome.  The `metadata` flag only prints to the console and is
not modelled.  Returns (outcome, filesystem, events). -/
def fetchAndParseURL (w : World) (outputDirectory : String) (fs : FS)
    (url : String) : FetchOutcome × FS × List Event :=
  if isValidUrl url then
    match w.axiosGet url with
    | .error e => (.errorCaught e, fs, [.axiosFetch url])
    | .ok data =>
      match extractDomainName url with
      | none => (.errorCaught "Invalid URL", fs, [.axiosFetch url])
      | some host =>
        let filename := pathJoin outputDirectory (host ++ ".html")
        (.saved filename,
         fsWrite fs filename (w.cheerioHtml data),
         [.axiosFetch url, .writeFile filename (w.cheerioHtml data)])
  else (.skippedInvalid, fs, [])

/-- Embedding of the loop body of `mirror`'s asset loop
(src/index.ts:152-172), threading the filesystem and the event trace.
Only asset URLs starting with the exact prefix http:// or https:// reach
`page.goto`; a throw or a null response is reported and the loop moves on;
on a response the buffer is written to `dirPath` joined with the asset
URL's pathname. -/
def assetStep (w : World) (dirPath : String) (st : FS × List Event)
    (assetUrl : String) : FS × List Event :=
  if strStartsWith assetUrl "http://" || strStartsWith assetUrl "https://" then
    match w.assetFetch assetUrl with
    | none => (st.1, st.2 ++ [.gotoAsset assetUrl, .assetError assetUrl])
    | some none => (st.1, st.2 ++ [.gotoAsset assetUrl, .noResponse assetUrl])
    | some (some buf) =>
      match parseURL assetUrl with
      | none => (st.1, st.2 ++ [.gotoAsset assetUrl, .assetError assetUrl])
      | some ua =>
        let assetPath := pathJoin dirPath ua.pathname
        (fsWrite st.1 assetPath buf,
         st.2 ++ [.gotoAsset assetUrl, .writeFile assetPath buf])
  else (st.1, st.2 ++ [.skipAsset assetUrl])

/-- Result of one `mirror` call: `result` is the promise outcome
(`Except.error` = the promise rejects with an uncaught throw), plus the
filesystem and the event trace after the call. -/
structure MirrorOut where
  result : Except String Unit
  fs : FS
  trace : List Event
  deriving Repr

/-- Embedding of `mirror` (src/index.ts:112-176).  `puppeteer.launch` and
`browser.newPage` happen first, then `page.goto(url)`; there is no
try/catch at this level, so a navigation failure (or an `Invalid URL` throw
from `new URL(url)` on line 124) rejects the whole call — and, the
`browser.close()` on line 174 being the last statement with no
`finally`, no `browserClose` event happens on those paths.  On success the
page content is written to `outputDirectory/<hostname>/index.html` before
the asset loop runs. -/
def mirror (w : World) (outputDirectory : String) (fs : FS) (url : String) :
    MirrorOut :=
  match w.renderPage url with
  | .error e =>
    { result := .error e, fs := fs
      trace := [.browserLaunch, .newPage, .gotoPage url] }
  | .ok content =>
    match parseURL url with
    | none =>
      { result := .error "Invalid URL", fs := fs
        trace := [.browserLaunch, .newPage, .gotoPage url] }
    | some urlObj =>
      let dirPath := pathJoin outputDirectory urlObj.hostname
      let indexPath := pathJoin dirPath "index.html"
      let st := (w.assets url).foldl (assetStep w dirPath)
        (fsWrite fs indexPath content,
         [.browserLaunch, .newPage, .gotoPage url,
          .writeFile indexPath content])
      { result := .ok (), fs := st.1, trace := st.2 ++ [.browserClose] }

def isOkResult : Except String Unit → Bool
  | .ok _ => true
  | .error _ => false

/-- One step of the fetch phase of `main`: the next `fetchAndParseURL` job,
accumulating (filesystem, outcomes, events). -/
def fetchStep (w : World) (outputDirectory : String)
    (acc : FS × List FetchOutcome × List Event) (url : String) :
    FS × List FetchOutcome × List Event :=
  let r := fetchAndParseURL w outputDirectory acc.1 url
  (r.2.1, acc.2.1 ++ [r.1], acc.2.2 ++ r.2.2)

/-- One step of the mirror phase of `main`: the next `mirror` job,
accumulating (filesystem, per-job results, events). -/
def mirrorStep (w : World) (outputDirectory : String)
    (acc : FS × List (Except String Unit) × List Event) (url : String) :
    FS × List (Except String Unit) × List Event :=
  let m := mirror w outputDirectory acc.1 url
  (m.fs, acc.2.1 ++ [m.result], acc.2.2 ++ m.trace)

/-- The mirror phase of `main` (src/index.ts:188-192):
`urls.map((url) => mirror(url))` starts every job; under the
single-threaded cooperative concurrency of the runtime every started job
runs to its own completion, and the jobs write into per-host directories,
so the phase is modelled as the jobs run in list order.  Returns the
filesystem, the per-job promise results in input order, and the
concatenated traces. -/
def mirrorPhase (w : World) (outputDirectory : String) (fs : FS)
    (urls : List String) : FS × List (Except String Unit) × List Event :=
  urls.foldl (mirrorStep w outputDirectory) (fs, [], [])

/-- Aggregate outcome of one `main` run.  `mirrorAllFulfilled` is whether
`await Promise.all(mirrorPromises)` fulfills — i.e. whether `main` reaches
the line after it ("Mirroring process completed.") instead of rejecting:
`Promise.all` fulfills iff every job's promise fulfills. -/
structure BatchOut where
  fetchOutcomes : List FetchOutcome
  mirrorResults : List (Except String Unit)
  mirrorAllFulfilled : Bool
  fs : FS
  trace : List Event
  deriving Repr

/-- Embedding of `main` (src/index.ts:181-194): the fetch phase
(`Promise.all` over `fetchAndParseURL`, every failure caught inside the
job) runs over all URLs, then, when the mirror flag is set, the mirror
phase runs over the same URLs. -/
def main (w : World) (outputDirectory : String) (mirrorFlag : Bool)
    (fs : FS) (urls : List String) : BatchOut :=
  let f := urls.foldl (fetchStep w outputDirectory) (fs, [], [])
  if mirrorFlag then
    let m := mirrorPhase w outputDirectory f.1 urls
    { fetchOutcomes := f.2.1, mirrorResults := m.2.1
      mirrorAllFulfilled := m.2.1.all isOkResult
      fs := m.1, trace := f.2.2 ++ m.2.2 }
  else
    { fetchOutcomes := f.2.1, mirrorResults := []
      mirrorAllFulfilled := true, fs := f.1, trace := f.2.2 }

/-- The event trace one iteration of the asset loop produces for a given
candidate URL (a derived description of `assetStep`; proved equal to it in
`assetStep_trace`). -/
def assetTrace (w : World) (dirPath : String) (assetUrl : String) :
    List Event :=
  if strStartsWith assetUrl "http://" || strStartsWith assetUrl "https://" then
    match w.assetFetch assetUrl with
    | none => [.gotoAsset assetUrl, .assetError assetUrl]
    | some none => [.gotoAsset assetUrl, .noResponse assetUrl]
    | some (some buf) =>
      match parseURL assetUrl with
      | none => [.gotoAsset assetUrl, .assetError assetUrl]
      | some ua =>
        [.gotoAsset assetUrl,
         .writeFile (pathJoin dirPath ua.pathname) buf]
  else [.skipAsset assetUrl]

/-- Whether the asset loop fails on this candidate: wrong scheme, a thrown
navigation, a null response, or an unparseable URL. -/
def assetFails (w : World) (assetUrl : String) : Bool :=
  if strStartsWith assetUrl "http://" || strStartsWith assetUrl "https://" then
    match w.assetFetch assetUrl with
    | none => true
    | some none => true
    | some (some _) => (parseURL assetUrl).isNone
  else true

/-- The local destination path of an asset: the per-host directory joined
with the asset URL's path component. -/
def localAssetPath (dirPath assetUrl : String) : String :=
  pathJoin dirPath (((parseURL assetUrl).map URLRec.pathname).getD "")

/-- The (path, content) pairs a trace writes, in order. -/
def writesOf (t : List Event) : List (String × String) :=
  t.filterMap fun e =>
    match e with
    | .writeFile p c => some (p, c)
    | _ => none

/-- Replays a list of writes onto a filesystem. -/
def applyWrites (fs : FS) (l : List (String × String)) : FS :=
  l.foldl (fun f e => fsWrite f e.1 e.2) fs

/-- The content of the last write at `p` in a list of writes, if any. -/
def lastWriteAt (l : List (String × String)) (p : String) : Option String :=
  match l with
  | [] => none
  | e :: rest =>
    match lastWriteAt rest p with
    | some c => some c
    | none => if e.1 == p then some e.2 else none

def isLaunch : Event → Bool
  | .browserLaunch => true
  | _ => false

def isNewPage : Event → Bool
  | .newPage => true
  | _ => false

/-- Per-asset failure reports: the skip on a bad scheme, the per-asset
catch, and the null-response report. -/
def isFailureEvent : Event → Bool
  | .skipAsset _ => true
  | .assetError _ => true
  | .noResponse _ => true
  | _ => false

def countLaunches (t : List Event) : Nat := t.countP isLaunch

def countNewPages (t : List Event) : Nat := t.countP isNewPage

def failureCount (t : List Event) : Nat := t.countP isFailureEvent

/-- The validator contract exactly as the spec words it: true iff the
string parses as a structurally valid URL with scheme AND authority
present. -/
def specValidUrl (s : String) : Bool :=
  match parseURL s with
  | some u => u.hasAuthority
  | none => false

theorem assetStep_trace (w : World) (d : String) (st : FS × List Event)
    (a : String) : (assetStep w d st a).2 = st.2 ++ assetTrace w d a := by
  unfold assetStep assetTrace
  by_cases h : (strStartsWith a "http://" || strStartsWith a "https://") = true
  · simp only [h, if_true]
    cases w.assetFetch a with
    | none => rfl
    | some o =>
      cases o with
      | none => rfl
      | some b => cases parseURL a <;> rfl
  · simp [h]

theorem assetStep_fs (w : World) (d : String) (st : FS × List Event)
    (a : String) :
    (assetStep w d st a).1 = applyWrites st.1 (writesOf (assetTrace w d a)) := by
  unfold assetStep assetTrace
  by_cases h : (strStartsWith a "http://" || strStartsWith a "https://") = true
  · simp only [h, if_true]
    cases w.assetFetch a with
    | none => rfl
    | some o =>
      cases o with
      | none => rfl
      | some b => cases parseURL a <;> rfl
  · simp [h, writesOf, applyWrites]

theorem writesOf_append (t1 t2 : List Event) :
    writesOf (t1 ++ t2) = writesOf t1 ++ writesOf t2 := by
  simp [writesOf]

theorem applyWrites_append (fs : FS) (l1 l2 : List (String × String)) :
    applyWrites fs (l1 ++ l2) = applyWrites (applyWrites fs l1) l2 := by
  simp [applyWrites]

theorem assetLoop_trace (w : World) (d : String) (as : List String) :
    ∀ st : FS × List Event,
      (as.foldl (assetStep w d) st).2 =
        st.2 ++ (as.map (assetTrace w d)).flatten := by
  induction as with
  | nil => intro st; simp
  | cons a rest ih =>
    intro st
    rw [List.foldl_cons, ih, assetStep_trace]
    simp

theorem assetLoop_fs (w : World) (d : String) (as : List String) :
    ∀ st : FS × List Event,
      (as.foldl (assetStep w d) st).1 =
        applyWrites st.1 (writesOf ((as.map (assetTrace w d)).flatten)) := by
  induction as with
  | nil => intro st; simp [applyWrites, writesOf]
  | cons a rest ih =>
    intro st
    rw [List.foldl_cons, ih, assetStep_fs]
    simp [writesOf_append, applyWrites_append]

theorem mirror_render_error (w : World) (out : String) (fs : FS)
    (url : String) (e : String) (h : w.renderPage url = .error e) :
    mirror w out fs url =
      { result := .error e, fs := fs
        trace := [.browserLaunch, .newPage, .gotoPage url] } := by
  unfold mirror
  rw [h]

theorem mirror_parse_none (w : World) (out : String) (fs : FS)
    (url : String) (c : String) (hr : w.renderPage url = .ok c)
    (hp : parseURL url = none) :
    mirror w out fs url =
      { result := .error "Invalid URL", fs := fs
        trace := [.browserLaunch, .newPage, .gotoPage url] } := by
  unfold mirror
  rw [hr, hp]

theorem mirror_success (w : World) (out : String) (fs : FS) (url : String)
    (c : String) (u : URLRec) (hr : w.renderPage url = .ok c)
    (hp : parseURL url = some u) :
    mirror w out fs url =
      { result := .ok ()
        fs := applyWrites
          (fsWrite fs (pathJoin (pathJoin out u.hostname) "index.html") c)
          (writesOf (((w.assets url).map
            (assetTrace w (pathJoin out u.hostname))).flatten))
        trace :=
          [.browserLaunch, .newPage, .gotoPage url,
           .writeFile (pathJoin (pathJoin out u.hostname) "index.html") c]
          ++ ((w.assets url).map (assetTrace w (pathJoin out u.hostname))).flatten
          ++ [.browserClose] } := by
  unfold mirror
  rw [hr, hp]
  simp only [assetLoop_trace, assetLoop_fs]

theorem fsRead_fsWrite (fs : FS) (q c p : String) :
    fsRead (fsWrite fs q c) p = if q == p then some c else fsRead fs p := by
  by_cases h : (q == p) = true
  · simp [fsRead, fsWrite, List.find?, h]
  · simp only [Bool.not_eq_true] at h
    simp [fsRead, fsWrite, List.find?, h]

theorem fsRead_applyWrites (l : List (String × String)) :
    ∀ (fs : FS) (p : String),
      fsRead (applyWrites fs l) p =
        match lastWriteAt l p with
        | some c => some c
        | none => fsRead fs p := by
  induction l with
  | nil => intro fs p; simp [applyWrites, lastWriteAt]
  | cons e rest ih =>
    intro fs p
    have h1 : applyWrites fs (e :: rest) =
        applyWrites (fsWrite fs e.1 e.2) rest := rfl
    rw [h1, ih]
    cases hl : lastWriteAt rest p with
    | some c => simp [lastWriteAt, hl]
    | none =>
      simp only [lastWriteAt, hl, fsRead_fsWrite]
      by_cases h : (e.1 == p) = true
      · simp [h]
      · simp only [Bool.not_eq_true] at h
        simp [h]

theorem mirror_success_noassets (w : World) (out : String) (fs : FS)
    (url : String) (c : String) (u : URLRec) (hr : w.renderPage url = .ok c)
    (hp : parseURL url = some u) (ha : w.assets url = []) :
    mirror w out fs url =
      { result := .ok ()
        fs := fsWrite fs (pathJoin (pathJoin out u.hostname) "index.html") c
        trace :=
          [.browserLaunch, .newPage, .gotoPage url,
           .writeFile (pathJoin (pathJoin out u.hostname) "index.html") c,
           .browserClose] } := by
  rw [mirror_success w out fs url c u hr hp, ha]
  simp [writesOf, applyWrites]

theorem mirror_fs_eq (w : World) (out : String) (fs : FS) (url : String) :
    (mirror w out fs url).fs =
      applyWrites fs (writesOf (mirror w out fs url).trace) := by
  cases hr : w.renderPage url with
  | error e => rw [mirror_render_error w out fs url e hr]; rfl
  | ok c =>
    cases hp : parseURL url with
    | none => rw [mirror_parse_none w out fs url c hr hp]; rfl
    | some u =>
      simp only [mirror_success w out fs url c u hr hp]
      rw [writesOf_append, writesOf_append, applyWrites_append,
        applyWrites_append]
      rfl

theorem countLaunches_append (t1 t2 : List Event) :
    countLaunches (t1 ++ t2) = countLaunches t1 + countLaunches t2 := by
  simp [countLaunches, List.countP_append]

theorem countNewPages_append (t1 t2 : List Event) :
    countNewPages (t1 ++ t2) = countNewPages t1 + countNewPages t2 := by
  simp [countNewPages, List.countP_append]

theorem failureCount_append (t1 t2 : List Event) :
    failureCount (t1 ++ t2) = failureCount t1 + failureCount t2 := by
  simp [failureCount, List.countP_append]

theorem countLaunches_assetTrace (w : World) (d a : String) :
    countLaunches (assetTrace w d a) = 0 := by
  unfold assetTrace countLaunches
  by_cases h : (strStartsWith a "http://" || strStartsWith a "https://") = true
  · simp only [h, if_true]
    cases w.assetFetch a with
    | none => rfl
    | some o =>
      cases o with
      | none => rfl
      | some b => cases parseURL a <;> rfl
  · simp [h, isLaunch]

theorem countNewPages_assetTrace (w : World) (d a : String) :
    countNewPages (assetTrace w d a) = 0 := by
  unfold assetTrace countNewPages
  by_cases h : (strStartsWith a "http://" || strStartsWith a "https://") = true
  · simp only [h, if_true]
    cases w.assetFetch a with
    | none => rfl
    | some o =>
      cases o with
      | none => rfl
      | some b => cases parseURL a <;> rfl
  · simp [h, isNewPage]

theorem countLaunches_flatten (w : World) (d : String) (as : List String) :
    countLaunches ((as.map (assetTrace w d)).flatten) = 0 := by
  induction as with
  | nil => rfl
  | cons a rest ih =>
    simp only [List.map_cons, List.flatten_cons]
    rw [countLaunches_append, countLaunches_assetTrace, ih]

theorem countNewPages_flatten (w : World) (d : String) (as : List String) :
    countNewPages ((as.map (assetTrace w d)).flatten) = 0 := by
  induction as with
  | nil => rfl
  | cons a rest ih =>
    simp only [List.map_cons, List.flatten_cons]
    rw [countNewPages_append, countNewPages_assetTrace, ih]

theorem countLaunches_mirror (w : World) (out : String) (fs : FS)
    (url : String) : countLaunches (mirror w out fs url).trace = 1 := by
  cases hr : w.renderPage url with
  | error e => rw [mirror_render_error w out fs url e hr]; rfl
  | ok c =>
    cases hp : parseURL url with
    | none => rw [mirror_parse_none w out fs url c hr hp]; rfl
    | some u =>
      simp only [mirror_success w out fs url c u hr hp]
      rw [countLaunches_append, countLaunches_append, countLaunches_flatten]
      rfl

theorem countNewPages_mirror (w : World) (out : String) (fs : FS)
    (url : String) : countNewPages (mirror w out fs url).trace = 1 := by
  cases hr : w.renderPage url with
  | error e => rw [mirror_render_error w out fs url e hr]; rfl
  | ok c =>
    cases hp : parseURL url with
    | none => rw [mirror_parse_none w out fs url c hr hp]; rfl
    | some u =>
      simp only [mirror_success w out fs url c u hr hp]
      rw [countNewPages_append, countNewPages_append, countNewPages_flatten]
      rfl

theorem countLaunches_fetchAndParseURL (w : World) (o : String) (fs : FS)
    (url : String) : countLaunches (fetchAndParseURL w o fs url).2.2 = 0 := by
  unfold fetchAndParseURL
  by_cases h : isValidUrl url = true
  · simp only [h, if_true]
    cases w.axiosGet url with
    | error e => rfl
    | ok d => cases extractDomainName url <;> rfl
  · simp [h, countLaunches]

theorem countNewPages_fetchAndParseURL (w : World) (o : String) (fs : FS)
    (url : String) : countNewPages (fetchAndParseURL w o fs url).2.2 = 0 := by
  unfold fetchAndParseURL
  by_cases h : isValidUrl url = true
  · simp only [h, if_true]
    cases w.axiosGet url with
    | error e => rfl
    | ok d => cases extractDomainName url <;> rfl
  · simp [h, countNewPages]

theorem countLaunches_fetchFold (w : World) (o : String) (urls : List String) :
    ∀ acc : FS × List FetchOutcome × List Event,
      countLaunches ((urls.foldl (fetchStep w o) acc)).2.2 =
        countLaunches acc.2.2 := by
  induction urls with
  | nil => intro acc; rfl
  | cons u rest ih =>
    intro acc
    rw [List.foldl_cons, ih]
    show countLaunches (acc.2.2 ++ (fetchAndParseURL w o acc.1 u).2.2) = _
    rw [countLaunches_append, countLaunches_fetchAndParseURL]
    omega

theorem countNewPages_fetchFold (w : World) (o : String) (urls : List String) :
    ∀ acc : FS × List FetchOutcome × List Event,
      countNewPages ((urls.foldl (fetchStep w o) acc)).2.2 =
        countNewPages acc.2.2 := by
  induction urls with
  | nil => intro acc; rfl
  | cons u rest ih =>
    intro acc
    rw [List.foldl_cons, ih]
    show countNewPages (acc.2.2 ++ (fetchAndParseURL w o acc.1 u).2.2) = _
    rw [countNewPages_append, countNewPages_fetchAndParseURL]
    omega

theorem countLaunches_mirrorFold (w : World) (o : String) (urls : List String) :
    ∀ acc : FS × List (Except String Unit) × List Event,
      countLaunches ((urls.foldl (mirrorStep w o) acc)).2.2 =
        countLaunches acc.2.2 + urls.length := by
  induction urls with
  | nil => intro acc; rfl
  | cons u rest ih =>
    intro acc
    rw [List.foldl_cons, ih]
    show countLaunches (acc.2.2 ++ (mirror w o acc.1 u).trace) + _ = _
    rw [countLaunches_append, countLaunches_mirror]
    simp [List.length_cons]
    omega

theorem countNewPages_mirrorFold (w : World) (o : String) (urls : List String) :
    ∀ acc : FS × List (Except String Unit) × List Event,
      countNewPages ((urls.foldl (mirrorStep w o) acc)).2.2 =
        countNewPages acc.2.2 + urls.length := by
  induction urls with
  | nil => intro acc; rfl
  | cons u rest ih =>
    intro acc
    rw [List.foldl_cons, ih]
    show countNewPages (acc.2.2 ++ (mirror w o acc.1 u).trace) + _ = _
    rw [countNewPages_append, countNewPages_mirror]
    simp [List.length_cons]
    omega

theorem failureCount_assetTrace (w : World) (d a : String) :
    failureCount (assetTrace w d a) = if assetFails w a then 1 else 0 := by
  unfold assetTrace assetFails failureCount
  by_cases h : (strStartsWith a "http://" || strStartsWith a "https://") = true
  · simp only [h, if_true]
    cases w.assetFetch a with
    | none => rfl
    | some o =>
      cases o with
      | none => rfl
      | some b => cases parseURL a <;> rfl
  · simp [h, isFailureEvent]

theorem failureCount_flatten (w : World) (d : String) (as : List String) :
    failureCount ((as.map (assetTrace w d)).flatten) =
      (as.filter (fun a => assetFails w a)).length := by
  induction as with
  | nil => rfl
  | cons a rest ih =>
    simp only [List.map_cons, List.flatten_cons, List.filter_cons]
    rw [failureCount_append, failureCount_assetTrace, ih]
    by_cases h : assetFails w a = true
    · simp [h]
      omega
    · simp only [Bool.not_eq_true] at h
      simp [h]

theorem writesOf_assetTrace_of_fails (w : World) (d a : String)
    (h : assetFails w a = true) : writesOf (assetTrace w d a) = [] := by
  unfold assetFails at h
  unfold assetTrace
  by_cases hp : (strStartsWith a "http://" || strStartsWith a "https://") = true
  · simp only [hp, if_true] at h ⊢
    cases hf : w.assetFetch a with
    | none => rfl
    | some o =>
      cases o with
      | none => rfl
      | some b =>
        rw [hf] at h
        cases hpp : parseURL a with
        | none => rfl
        | some ua => rw [hpp] at h; simp at h
  · simp [hp, writesOf]

theorem assetTrace_of_ok (w : World) (d a : String)
    (h : assetFails w a = false) :
    ∃ b ua, w.assetFetch a = some (some b) ∧ parseURL a = some ua ∧
      assetTrace w d a =
        [.gotoAsset a, .writeFile (pathJoin d ua.pathname) b] := by
  unfold assetFails at h
  by_cases hp : (strStartsWith a "http://" || strStartsWith a "https://") = true
  · simp only [hp, if_true] at h
    cases hf : w.assetFetch a with
    | none => rw [hf] at h; simp at h
    | some o =>
      cases o with
      | none => rw [hf] at h; simp at h
      | some b =>
        rw [hf] at h
        cases hpp : parseURL a with
        | none => rw [hpp] at h; simp at h
        | some ua =>
          refine ⟨b, ua, rfl, rfl, ?_⟩
          unfold assetTrace
          simp only [hp, if_true, hf, hpp]
  · simp only [hp, if_false] at h
    simp at h

theorem assetWrites_paths (w : World) (d : String) (as : List String)
    (h : ∀ a ∈ as, assetFails w a = false) :
    (writesOf ((as.map (assetTrace w d)).flatten)).map Prod.fst =
      as.map (localAssetPath d) := by
  induction as with
  | nil => rfl
  | cons a rest ih =>
    simp only [List.map_cons, List.flatten_cons, writesOf_append,
      List.map_append]
    obtain ⟨b, ua, hf, hpp, htr⟩ :=
      assetTrace_of_ok w d a (h a (by simp))
    rw [htr, ih (fun x hx => h x (by simp [hx]))]
    simp [writesOf, localAssetPath, hpp]

theorem isValidUrl_eq_isSome (s : String) :
    isValidUrl s = (parseURL s).isSome := by
  by_cases h : s = ""
  · subst h; decide
  · have hb : (s == "") = false := by
      simp [h]
    unfold isValidUrl
    rw [hb]
    simp only [Bool.false_eq_true, if_false]
    cases parseURL s <;> simp

theorem parseURL_of_not_valid (s : String) (h : isValidUrl s = false) :
    parseURL s = none := by
  rw [isValidUrl_eq_isSome] at h
  cases hp : parseURL s with
  | none => rfl
  | some u => rw [hp] at h; simp at h

/-- A concrete oracle for witness runs: pages render to a fixed DOM except
`https://b.example`, whose navigation times out, and unparseable URLs, on
which the navigation rejects; `https://example.com` carries two fetchable
assets, `https://one.example` one asset whose fetch throws; axios is down
throughout (the mirror claims do not concern the fetch path). -/
def demoWorld : World where
  renderPage := fun u =>
    if u == "https://b.example" then Except.error "net::ERR_TIMED_OUT"
    else if isValidUrl u then Except.ok "<html>page</html>"
    else Except.error "invalid URL"
  assets := fun u =>
    if u == "https://example.com" then
      ["https://example.com/logo.png", "https://example.com/app.js"]
    else if u == "https://one.example" then ["https://one.example/missing.js"]
    else []
  assetFetch := fun a =>
    if a == "https://example.com/logo.png" then some (some "PNGBYTES")
    else if a == "https://example.com/app.js" then some (some "JSBYTES")
    else none
  axiosGet := fun _ => Except.error "ECONNREFUSED"
  cheerioHtml := fun s => s

/-- First run of the re-mirroring scenario: version-1 page content with one
asset, `logo.png`. -/
def rerunWorldA : World where
  renderPage := fun _ => Except.ok "<html>v1</html>"
  assets := fun _ => ["https://example.com/logo.png"]
  assetFetch := fun a =>
    if a == "https://example.com/logo.png" then some (some "PNG1") else none
  axiosGet := fun _ => Except.error "ECONNREFUSED"
  cheerioHtml := fun s => s

/-- Second run of the re-mirroring scenario: the page re-renders with
different content and a different asset set (`app.js`; `logo.png` is no
longer referenced). -/
def rerunWorldB : World where
  renderPage := fun _ => Except.ok "<html>v2</html>"
  assets := fun _ => ["https://example.com/app.js"]
  assetFetch := fun a =>
    if a == "https://example.com/app.js" then some (some "JS2") else none
  axiosGet := fun _ => Except.error "ECONNREFUSED"
  cheerioHtml := fun s => s

/-- C5: in the asset loop a fetch is attempted (the per-asset `page.goto`
happens) if and only if the candidate string begins with the exact prefix
http:// or https://; in particular a data: URL and a relative path are
rejected with a skip report before any fetch attempt, with no write, and
the loop moves on. -/
theorem asset_scheme_gate (w : World) (d : String) (fs : FS) (a : String) :
    (Event.gotoAsset a ∈ (assetStep w d (fs, []) a).2 ↔
      (strStartsWith a "http://" || strStartsWith a "https://") = true) ∧
    assetStep w d (fs, []) "data:image/png;base64,AAAA" =
      (fs, [Event.skipAsset "data:image/png;base64,AAAA"]) ∧
    assetStep w d (fs, []) "/relative.js" =
      (fs, [Event.skipAsset "/relative.js"]) := by
  refine ⟨?_, ?_, ?_⟩
  · unfold assetStep
    by_cases h : (strStartsWith a "http://" || strStartsWith a "https://") = true
    · simp only [h, if_true, iff_true]
      cases w.assetFetch a with
      | none => simp
      | some o =>
        cases o with
        | none => simp
        | some b => cases parseURL a <;> simp
    · simp [h]
  · unfold assetStep
    have h : (strStartsWith "data:image/png;base64,AAAA" "http://"
        || strStartsWith "data:image/png;base64,AAAA" "https://") = false := by
      decide
    simp [h]
  · unfold assetStep
    have h : (strStartsWith "/relative.js" "http://"
        || strStartsWith "/relative.js" "https://") = false := by decide
    simp [h]

/-- C6 counterexample: `new URL` (and hence `isValidUrl`) accepts URLs that
have no authority, so the claimed contract "true iff scheme AND authority
present" fails at the concrete input `mailto:a@b`: the validator returns
true while the spec-worded contract demands false. -/
theorem validator_authority_counterexample :
    isValidUrl "mailto:a@b" = true ∧ specValidUrl "mailto:a@b" = false := by
  decide

/-- C6 (amended): the validator returns true iff the string parses as a
structurally valid URL — scheme required, authority NOT required — and
returns false, never throwing, for empty, malformed or unparseable input:
false for the empty string, "not a url" and "/relative/path"; true for
well-formed absolute URLs (and for parseable authority-less URLs such as
mailto:). -/
theorem validator_contract_amended :
    (∀ s : String, isValidUrl s = (parseURL s).isSome) ∧
    isValidUrl "" = false ∧
    isValidUrl "not a url" = false ∧
    isValidUrl "/relative/path" = false ∧
    isValidUrl "https://example.com" = true ∧
    isValidUrl "http://sub.example.org/a/b?q=1#frag" = true ∧
    isValidUrl "mailto:a@b" = true :=
  ⟨isValidUrl_eq_isSome, by decide, by decide, by decide, by decide,
    by decide, by decide⟩

/-- C8: the code violates the guaranteed-release requirement: when the page
navigation fails, `mirror` rejects with that error and the browser the job
launched is never closed — `browser.close()` is only reached at the end of
the success path, with no try/finally around the body. -/
theorem browser_leak_on_render_failure (w : World) (out : String) (fs : FS)
    (url e : String) (h : w.renderPage url = .error e) :
    (mirror w out fs url).result = .error e ∧
    Event.browserLaunch ∈ (mirror w out fs url).trace ∧
    Event.browserClose ∉ (mirror w out fs url).trace := by
  rw [mirror_render_error w out fs url e h]
  refine ⟨rfl, by simp, by simp⟩

/-- C8 witness: the leak at the concrete failing input `https://b.example`,
whose navigation times out. -/
theorem browser_leak_witness :
    demoWorld.renderPage "https://b.example" =
      .error "net::ERR_TIMED_OUT" ∧
    ((mirror demoWorld "out" [] "https://b.example").result =
        .error "net::ERR_TIMED_OUT" ∧
      Event.browserLaunch ∈
        (mirror demoWorld "out" [] "https://b.example").trace ∧
      Event.browserClose ∉
        (mirror demoWorld "out" [] "https://b.example").trace) :=
  ⟨rfl, browser_leak_on_render_failure demoWorld "out" [] "https://b.example"
    "net::ERR_TIMED_OUT" rfl⟩

/-- C10: within one mirror job processing is strictly sequential and in
discovery order: the trace is exactly launch, new page, the page
navigation, the page-file write, then each asset's events as one
contiguous block in the order the assets were discovered (so asset i+1
starts only after asset i has fully finished and no two asset fetches of
the same page overlap), then the browser close. -/
theorem mirror_trace_sequential (w : World) (out : String) (fs : FS)
    (url c : String) (u : URLRec) (hr : w.renderPage url = .ok c)
    (hp : parseURL url = some u) :
    (mirror w out fs url).trace =
      [Event.browserLaunch, Event.newPage, Event.gotoPage url,
       Event.writeFile (pathJoin (pathJoin out u.hostname) "index.html") c]
      ++ ((w.assets url).map (assetTrace w (pathJoin out u.hostname))).flatten
      ++ [Event.browserClose] := by
  simp only [mirror_success w out fs url c u hr hp]

/-- C10 witness: the fully evaluated trace of the end-to-end scenario run —
the page file write precedes the first asset fetch, and the two asset
fetch/write blocks follow in discovery order. -/
theorem mirror_trace_sequential_witness :
    (mirror demoWorld "out" [] "https://example.com").trace =
      [Event.browserLaunch, Event.newPage,
       Event.gotoPage "https://example.com",
       Event.writeFile "out/example.com/index.html" "<html>page</html>",
       Event.gotoAsset "https://example.com/logo.png",
       Event.writeFile "out/example.com/logo.png" "PNGBYTES",
       Event.gotoAsset "https://example.com/app.js",
       Event.writeFile "out/example.com/app.js" "JSBYTES",
       Event.browserClose] := by
  rw [mirror_trace_sequential demoWorld "out" [] "https://example.com"
    "<html>page</html>" ⟨"https", "example.com", "/", true⟩ rfl (by decide)]
  decide

/-- C4: when the page renders, an individual asset failure is reported and
isolated: the mirror result is still success, the index.html write still
happens, the number of reported asset failures equals the number of
failing assets, and excising a failing asset from the loop leaves the
filesystem outcome of the loop unchanged — the other assets are
unaffected. -/
theorem asset_failure_isolated (w : World) (out : String) (fs : FS)
    (url c : String) (u : URLRec) (l1 l2 : List String) (bad : String)
    (hr : w.renderPage url = .ok c) (hp : parseURL url = some u)
    (hbad : assetFails w bad = true) :
    (mirror w out fs url).result = .ok () ∧
    Event.writeFile (pathJoin (pathJoin out u.hostname) "index.html") c
      ∈ (mirror w out fs url).trace ∧
    failureCount (mirror w out fs url).trace =
      ((w.assets url).filter (fun a => assetFails w a)).length ∧
    ∀ st : FS × List Event,
      ((l1 ++ bad :: l2).foldl (assetStep w (pathJoin out u.hostname)) st).1 =
        ((l1 ++ l2).foldl (assetStep w (pathJoin out u.hostname)) st).1 := by
  refine ⟨?_, ?_, ?_, ?_⟩
  · rw [mirror_success w out fs url c u hr hp]
  · simp only [mirror_success w out fs url c u hr hp]
    simp
  · simp only [mirror_success w out fs url c u hr hp]
    rw [failureCount_append, failureCount_append, failureCount_flatten]
    have h1 : failureCount [Event.browserLaunch, Event.newPage,
        Event.gotoPage url,
        Event.writeFile (pathJoin (pathJoin out u.hostname) "index.html") c]
        = 0 := rfl
    have h2 : failureCount [Event.browserClose] = 0 := rfl
    rw [h1, h2]
    omega
  · intro st
    rw [assetLoop_fs, assetLoop_fs]
    simp only [List.map_append, List.map_cons, List.flatten_append,
      List.flatten_cons, writesOf_append]
    rw [writesOf_assetTrace_of_fails w (pathJoin out u.hostname) bad hbad]
    simp

/-- C4 witness: `https://one.example` renders, its single asset's fetch
throws, and the page still mirrors with exactly one reported asset
failure. -/
theorem asset_failure_isolated_witness :
    demoWorld.renderPage "https://one.example" = .ok "<html>page</html>" ∧
    assetFails demoWorld "https://one.example/missing.js" = true ∧
    ((mirror demoWorld "out" [] "https://one.example").result = .ok () ∧
      Event.writeFile "out/one.example/index.html" "<html>page</html>"
        ∈ (mirror demoWorld "out" [] "https://one.example").trace ∧
      failureCount (mirror demoWorld "out" [] "https://one.example").trace
        = 1) := by
  have h := asset_failure_isolated demoWorld "out" [] "https://one.example"
    "<html>page</html>" ⟨"https", "one.example", "/", true⟩ [] []
    "https://one.example/missing.js" rfl (by decide) (by decide)
  exact ⟨rfl, by decide, h.1, h.2.1, h.2.2.1.trans (by decide)⟩

/-- C7: the mirror writes the page to outputRoot/<host>/index.html and each
successfully fetched asset to outputRoot/<host>/<asset URL path> — the
asset URL's path component joined under the same per-host directory: when
every discovered asset succeeds, the written paths are exactly the index
path followed by the per-asset local paths, in discovery order. -/
theorem mirror_output_layout (w : World) (out : String) (fs : FS)
    (url c : String) (u : URLRec) (hr : w.renderPage url = .ok c)
    (hp : parseURL url = some u)
    (hok : ∀ a ∈ w.assets url, assetFails w a = false) :
    (mirror w out fs url).result = .ok () ∧
    (writesOf (mirror w out fs url).trace).map Prod.fst =
      pathJoin (pathJoin out u.hostname) "index.html"
        :: (w.assets url).map (localAssetPath (pathJoin out u.hostname)) := by
  refine ⟨?_, ?_⟩
  · rw [mirror_success w out fs url c u hr hp]
  · simp only [mirror_success w out fs url c u hr hp]
    rw [writesOf_append, writesOf_append]
    simp only [List.map_append]
    rw [assetWrites_paths w (pathJoin out u.hostname) (w.assets url) hok]
    simp [writesOf]

/-- C7 witness: the spec's end-to-end scenario — page
`https://example.com` with assets `logo.png` and `app.js` writes exactly
`out/example.com/index.html`, `out/example.com/logo.png` and
`out/example.com/app.js`. -/
theorem mirror_output_layout_witness :
    (∀ a ∈ demoWorld.assets "https://example.com",
        assetFails demoWorld a = false) ∧
    (writesOf (mirror demoWorld "out" [] "https://example.com").trace).map
        Prod.fst =
      ["out/example.com/index.html", "out/example.com/logo.png",
       "out/example.com/app.js"] := by
  have h := mirror_output_layout demoWorld "out" [] "https://example.com"
    "<html>page</html>" ⟨"https", "example.com", "/", true⟩ rfl (by decide)
    (by decide)
  refine ⟨by decide, ?_⟩
  rw [h.2]
  decide

/-- C9: re-mirroring the same URL into the same output root succeeds both
times without error; within the second run the later write wins (any path
whose last second-run write has content c reads back c), the second run
rewrites index.html with the new content, and every path the second run
does not write keeps exactly the value the first run left — stale
first-run files are not deleted. -/
theorem rerun_overwrite_semantics (w1 w2 : World) (out : String) (fs0 : FS)
    (url c1 c2 : String) (u : URLRec)
    (hr1 : w1.renderPage url = .ok c1) (hr2 : w2.renderPage url = .ok c2)
    (hp : parseURL url = some u) :
    isOkResult (mirror w1 out fs0 url).result = true ∧
    isOkResult (mirror w2 out (mirror w1 out fs0 url).fs url).result = true ∧
    (pathJoin (pathJoin out u.hostname) "index.html", c2)
      ∈ writesOf (mirror w2 out (mirror w1 out fs0 url).fs url).trace ∧
    (∀ p c, lastWriteAt
        (writesOf (mirror w2 out (mirror w1 out fs0 url).fs url).trace) p
          = some c →
      fsRead (mirror w2 out (mirror w1 out fs0 url).fs url).fs p = some c) ∧
    (∀ p, lastWriteAt
        (writesOf (mirror w2 out (mirror w1 out fs0 url).fs url).trace) p
          = none →
      fsRead (mirror w2 out (mirror w1 out fs0 url).fs url).fs p =
        fsRead (mirror w1 out fs0 url).fs p) := by
  refine ⟨?_, ?_, ?_, ?_, ?_⟩
  · rw [mirror_success w1 out fs0 url c1 u hr1 hp]
    rfl
  · rw [mirror_success w2 out ((mirror w1 out fs0 url).fs) url c2 u hr2 hp]
    rfl
  · simp only [mirror_success w2 out ((mirror w1 out fs0 url).fs) url c2 u
      hr2 hp]
    rw [writesOf_append, writesOf_append]
    simp [writesOf]
  · intro p c hc
    rw [mirror_fs_eq, fsRead_applyWrites, hc]
  · intro p hnone
    rw [mirror_fs_eq, fsRead_applyWrites, hnone]

/-- C9 witness: mirroring `https://example.com` twice — first run writes
v1 content and `logo.png`, second run writes v2 content and `app.js`; both
runs succeed, `index.html` holds the second run's content, `app.js` the
second run's bytes, and the stale `logo.png` from the first run is left
untouched. -/
theorem rerun_overwrite_semantics_witness :
    rerunWorldB.renderPage "https://example.com" = .ok "<html>v2</html>" ∧
    isOkResult (mirror rerunWorldA "out" [] "https://example.com").result
      = true ∧
    isOkResult (mirror rerunWorldB "out"
      (mirror rerunWorldA "out" [] "https://example.com").fs
      "https://example.com").result = true ∧
    fsRead (mirror rerunWorldB "out"
        (mirror rerunWorldA "out" [] "https://example.com").fs
        "https://example.com").fs "out/example.com/index.html"
      = some "<html>v2</html>" ∧
    fsRead (mirror rerunWorldB "out"
        (mirror rerunWorldA "out" [] "https://example.com").fs
        "https://example.com").fs "out/example.com/app.js"
      = some "JS2" ∧
    fsRead (mirror rerunWorldB "out"
        (mirror rerunWorldA "out" [] "https://example.com").fs
        "https://example.com").fs "out/example.com/logo.png"
      = some "PNG1" := by
  have h := rerun_overwrite_semantics rerunWorldA rerunWorldB "out" []
    "https://example.com" "<html>v1</html>" "<html>v2</html>"
    ⟨"https", "example.com", "/", true⟩ rfl rfl (by decide)
  refine ⟨rfl, h.1, h.2.1, ?_, ?_, ?_⟩
  · exact h.2.2.2.1 "out/example.com/index.html" "<html>v2</html>" (by decide)
  · exact h.2.2.2.1 "out/example.com/app.js" "JS2" (by decide)
  · exact (h.2.2.2.2 "out/example.com/logo.png" (by decide)).trans (by decide)

/-- C1 counterexample: in a batch of three URLs where the second fails to
render, the rejection of that mirror job is not caught anywhere, so
`Promise.all(mirrorPromises)` rejects and the batch does NOT reach its
completed state — refuting "every per-item failure is caught at the scope
of that item ... and the batch always reaches its completed state". -/
theorem batch_completion_counterexample :
    (main demoWorld "out" true []
      ["https://a.example", "https://b.example", "https://c.example"]
      ).mirrorAllFulfilled = false := by
  decide

/-- C1 (amended): per-item catching holds for asset failures and for the
fetch-and-parse path, but a mirror job render failure is NOT caught at
item scope: that job's promise rejects, and the batch join rejects
instead of completing with per-item outcomes.  Sibling jobs, already
started, do run to completion: with URL #2 failing to render, the mirrors
of URLs #1 and #3 are still fully produced. -/
theorem batch_failure_isolation_amended (w : World) (out : String)
    (fs0 : FS) (u1 u2 u3 c1 c3 e : String) (r1 r3 : URLRec)
    (hr1 : w.renderPage u1 = .ok c1) (hr2 : w.renderPage u2 = .error e)
    (hr3 : w.renderPage u3 = .ok c3)
    (hp1 : parseURL u1 = some r1) (hp3 : parseURL u3 = some r3)
    (ha1 : w.assets u1 = []) (ha3 : w.assets u3 = [])
    (hne : pathJoin (pathJoin out r1.hostname) "index.html" ≠
      pathJoin (pathJoin out r3.hostname) "index.html") :
    (mirrorPhase w out fs0 [u1, u2, u3]).2.1 =
      [Except.ok (), Except.error e, Except.ok ()] ∧
    (mirrorPhase w out fs0 [u1, u2, u3]).2.1.all isOkResult = false ∧
    fsRead (mirrorPhase w out fs0 [u1, u2, u3]).1
      (pathJoin (pathJoin out r1.hostname) "index.html") = some c1 ∧
    fsRead (mirrorPhase w out fs0 [u1, u2, u3]).1
      (pathJoin (pathJoin out r3.hostname) "index.html") = some c3 := by
  have m1 : ∀ fs : FS, mirror w out fs u1 =
      { result := .ok ()
        fs := fsWrite fs (pathJoin (pathJoin out r1.hostname) "index.html") c1
        trace := [Event.browserLaunch, Event.newPage, Event.gotoPage u1,
          Event.writeFile (pathJoin (pathJoin out r1.hostname) "index.html")
            c1,
          Event.browserClose] } := fun fs =>
    mirror_success_noassets w out fs u1 c1 r1 hr1 hp1 ha1
  have m2 : ∀ fs : FS, mirror w out fs u2 =
      { result := .error e, fs := fs
        trace := [Event.browserLaunch, Event.newPage, Event.gotoPage u2] } :=
    fun fs => mirror_render_error w out fs u2 e hr2
  have m3 : ∀ fs : FS, mirror w out fs u3 =
      { result := .ok ()
        fs := fsWrite fs (pathJoin (pathJoin out r3.hostname) "index.html") c3
        trace := [Event.browserLaunch, Event.newPage, Event.gotoPage u3,
          Event.writeFile (pathJoin (pathJoin out r3.hostname) "index.html")
            c3,
          Event.browserClose] } := fun fs =>
    mirror_success_noassets w out fs u3 c3 r3 hr3 hp3 ha3
  have hb : ((pathJoin (pathJoin out r3.hostname) "index.html") ==
      (pathJoin (pathJoin out r1.hostname) "index.html")) = false :=
    beq_eq_false_iff_ne.mpr (Ne.symm hne)
  refine ⟨?_, ?_, ?_, ?_⟩
  · simp [mirrorPhase, List.foldl_cons, List.foldl_nil, mirrorStep, m1, m2,
      m3]
  · simp [mirrorPhase, List.foldl_cons, List.foldl_nil, mirrorStep, m1, m2,
      m3, isOkResult]
  · simp [mirrorPhase, List.foldl_cons, List.foldl_nil, mirrorStep, m1, m2,
      m3, fsRead_fsWrite, hb]
  · simp [mirrorPhase, List.foldl_cons, List.foldl_nil, mirrorStep, m1, m2,
      m3, fsRead_fsWrite]

/-- C1 witness: the concrete three-URL batch in which only
`https://b.example` fails to render. -/
theorem batch_failure_isolation_witness :
    demoWorld.renderPage "https://b.example" =
      .error "net::ERR_TIMED_OUT" ∧
    ((mirrorPhase demoWorld "out" []
        ["https://a.example", "https://b.example", "https://c.example"]).2.1 =
      [Except.ok (), Except.error "net::ERR_TIMED_OUT", Except.ok ()] ∧
    (mirrorPhase demoWorld "out" []
        ["https://a.example", "https://b.example", "https://c.example"]
        ).2.1.all isOkResult = false ∧
    fsRead (mirrorPhase demoWorld "out" []
        ["https://a.example", "https://b.example", "https://c.example"]).1
      "out/a.example/index.html" = some "<html>page</html>" ∧
    fsRead (mirrorPhase demoWorld "out" []
        ["https://a.example", "https://b.example", "https://c.example"]).1
      "out/c.example/index.html" = some "<html>page</html>") := by
  have h := batch_failure_isolation_amended demoWorld "out" []
    "https://a.example" "https://b.example" "https://c.example"
    "<html>page</html>" "<html>page</html>" "net::ERR_TIMED_OUT"
    ⟨"https", "a.example", "/", true⟩ ⟨"https", "c.example", "/", true⟩
    rfl rfl rfl (by decide) (by decide) (by decide) (by decide) (by decide)
  exact ⟨rfl, h.1, h.2.1, h.2.2.1, h.2.2.2⟩

/-- C2 counterexample: a batch of two URLs with mirroring launches two
browsers — there is no single shared browser for the whole batch. -/
theorem shared_browser_counterexample :
    countLaunches (main demoWorld "out" true []
      ["https://a.example", "https://c.example"]).trace ≠ 1 := by
  decide

/-- C2 (amended): the browser is launched per URL: a batch of N URLs with
mirroring performs exactly N `puppeteer.launch`es and exactly N
`browser.newPage`s — each mirror job launches its own browser instance
and opens one fresh page in that instance. -/
theorem browser_launched_per_url (w : World) (out : String) (fs : FS)
    (urls : List String) :
    countLaunches (main w out true fs urls).trace = urls.length ∧
    countNewPages (main w out true fs urls).trace = urls.length := by
  constructor
  · show countLaunches
      ((urls.foldl (fetchStep w out) (fs, [], [])).2.2 ++
        (mirrorPhase w out
          (urls.foldl (fetchStep w out) (fs, [], [])).1 urls).2.2) = _
    rw [countLaunches_append, countLaunches_fetchFold]
    unfold mirrorPhase
    rw [countLaunches_mirrorFold]
    show countLaunches [] + (countLaunches [] + urls.length) = urls.length
    simp [countLaunches]
  · show countNewPages
      ((urls.foldl (fetchStep w out) (fs, [], [])).2.2 ++
        (mirrorPhase w out
          (urls.foldl (fetchStep w out) (fs, [], [])).1 urls).2.2) = _
    rw [countNewPages_append, countNewPages_fetchFold]
    unfold mirrorPhase
    rw [countNewPages_mirrorFold]
    show countNewPages [] + (countNewPages [] + urls.length) = urls.length
    simp [countNewPages]

/-- C3 counterexample: the validator does not gate the mirror mode — for
the invalid input "not a url" the mirror path still attempts the page
navigation (`page.goto("not a url")` happens), refuting "that single item
is skipped (no fetch, no render, ...) in both processing modes". -/
theorem validator_gate_counterexample :
    Event.gotoPage "not a url" ∈
      (main demoWorld "out" true [] ["not a url"]).trace := by
  decide

/-- C3 (amended): the validator gates only the fetch-and-parse path: there
an invalid URL is skipped with no fetch, no write and no event, and the
batch continues; the mirror path never consults the validator — the
mirror job launches a browser, attempts the navigation, and fails with an
uncaught rejection. -/
theorem validator_gates_fetch_only (w : World) (out : String) (fs : FS)
    (url : String) (h : isValidUrl url = false) :
    fetchAndParseURL w out fs url = (.skippedInvalid, fs, []) ∧
    Event.gotoPage url ∈ (mirror w out fs url).trace ∧
    isOkResult (mirror w out fs url).result = false := by
  refine ⟨?_, ?_, ?_⟩
  · unfold fetchAndParseURL
    simp [h]
  · cases hr : w.renderPage url with
    | error e => rw [mirror_render_error w out fs url e hr]; simp
    | ok c =>
      rw [mirror_parse_none w out fs url c hr (parseURL_of_not_valid url h)]
      simp
  · cases hr : w.renderPage url with
    | error e => rw [mirror_render_error w out fs url e hr]; rfl
    | ok c =>
      rw [mirror_parse_none w out fs url c hr (parseURL_of_not_valid url h)]
      rfl

/-- C3 witness: the concrete invalid input "not a url". -/
theorem validator_gates_fetch_only_witness :
    isValidUrl "not a url" = false ∧
    (fetchAndParseURL demoWorld "out" [] "not a url" =
        (.skippedInvalid, [], []) ∧
      Event.gotoPage "not a url" ∈
        (mirror demoWorld "out" [] "not a url").trace ∧
      isOkResult (mirror demoWorld "out" [] "not a url").result = false) :=
  ⟨by decide,
    validator_gates_fetch_only demoWorld "out" [] "not a url" (by decide)⟩

end Fetch
